import Mathlib

/-!
Shallow embedding of the Cyber-Threat-Detection frontend core
(src/App.tsx, src/Globe3D.tsx, and the GeoMap component), together with
theorems settling the specification claims about it.

Conventions of the embedding:
* JavaScript objects parsed from JSON become Lean structures; a field that
  may be absent at runtime (`id` on a raw pushed record, the coordinate
  pairs) is an `Option`.
* Timestamps are epoch milliseconds (`Int`), matching what the code
  computes via `new Date(x).getTime()`.
* Numeric payload fields that the claims never compute with
  (`confidence`, coordinates stored on a threat record) are `ℚ` so that
  equality of records stays decidable; the pure 3-D geometry of
  `Globe3D.tsx` is modelled over `ℝ`, since it is trigonometric.
* React `setThreats` state updates become functions from the previous
  collection to the next one; the two asynchronous update sites
  (`fetchThreats`' snapshot handler and `ws.onmessage`) become the two
  constructors of an `Op`, and a run of the component folds `applyOp`
  over an arbitrary list of such operations starting from the initial
  state `[]`.
-/

namespace Sentinel

/-- `{ lat, lon, city }` coordinate payload attached to a threat. -/
structure Coord where
  lat : ℚ
  lon : ℚ
  city : String
  deriving DecidableEq, Repr

/-- The `analysis` enrichment payload (opaque to the core logic). -/
structure Analysis where
  behavioral_score : ℚ
  pattern_match : String
  risk_index : ℚ
  deriving DecidableEq, Repr

/-- The `Threat` record of src/App.tsx.  `id` is `Option String` because a
raw record pushed over the WebSocket is `JSON.parse`d with no validation,
so the `id` field may be absent (`none`); the TypeScript type annotation
does not enforce presence at runtime. -/
structure Threat where
  id : Option String
  timestamp : Int
  type : String
  severity : String
  source : String
  target : String
  location : String
  attribution : String
  status : String
  confidence : ℚ
  source_coords : Option Coord
  target_coords : Option Coord
  analysis : Option Analysis
  mitigation_suggestions : Option (List String)
  deriving DecidableEq, Repr

/-- Capacity of the working collection: both update sites truncate with
`.slice(0, 50)`. -/
def capacity : Nat := 50

/-- The two state-update events that mutate the `threats` collection in
src/App.tsx:
* `message data` — `ws.onmessage`: `setThreats(prev => [data, ...prev].slice(0, 50))`;
* `snapshot data` — `fetchThreats`: `setThreats(data.slice(0, 50))`. -/
inductive Op where
  | message (data : Threat)
  | snapshot (data : List Threat)
  deriving Repr

/-- One state transition of the `threats` collection, transcribed from the
two `setThreats` call sites.  Note that the snapshot handler ignores the
previous collection entirely, and the message handler prepends the parsed
record with no de-duplication and no validation. -/
def applyOp (threats : List Threat) : Op → List Threat
  | Op.message data => (data :: threats).take capacity
  | Op.snapshot data => data.take capacity

/-- A run of the component: the collection obtained by applying a sequence
of operations to the initial state `useState<Threat[]>([])`. -/
def run (ops : List Op) : List Threat := ops.foldl applyOp []

/-- `updateLocalState` inside `handleMitigate`:
`setThreats(prev => prev.map(t => t.id === id ? { ...t, status: 'Mitigated' } : t))`. -/
def updateLocalState (id : String) (threats : List Threat) : List Threat :=
  threats.map (fun t => if t.id = some id then { t with status := "Mitigated" } else t)

/-- Outcome of the `fetch` in `handleMitigate`:
* `ok` — `response.ok` was true;
* `domainError msg` — `response.ok` false, `msg` the parsed `data.message`
  (`none` when the field is absent);
* `transportFailure` — the `fetch`/`json()` promise rejected (caught by
  the `catch` block). -/
inductive MitigationResponse where
  | ok
  | domainError (message : Option String)
  | transportFailure
  deriving DecidableEq, Repr

/-- The alert text built on the non-"not found" domain-error path:
`alert(\x60Mitigation failed: ${data.message || "Unknown error"}\x60)`;
in JavaScript `||` replaces a missing or empty message. -/
def mitigationAlertText (message : Option String) : String :=
  "Mitigation failed: " ++
    (match message with
      | some m => if m = "" then "Unknown error" else m
      | none => "Unknown error")

/-- `handleMitigate` of src/App.tsx as a function of the response outcome:
returns the new collection and the error surfaced to the operator
(`none` when no `alert` fires).  On `response.ok` it applies
`updateLocalState`; on the sentinel domain error `"Threat not found"` it
also applies `updateLocalState`; on any other domain error it leaves the
collection untouched and alerts; on transport failure (the `catch` block)
it applies `updateLocalState`. -/
def handleMitigate (id : String) (resp : MitigationResponse)
    (threats : List Threat) : List Threat × Option String :=
  match resp with
  | MitigationResponse.ok => (updateLocalState id threats, none)
  | MitigationResponse.domainError msg =>
      if msg = some "Threat not found" then (updateLocalState id threats, none)
      else (threats, some (mitigationAlertText msg))
  | MitigationResponse.transportFailure => (updateLocalState id threats, none)

/-- The freshness check of the GeoMap component:
`const isNew = (currentTime - threatTime) < 10000;` — both instants are
epoch milliseconds. -/
def isNew (threatTime currentTime : Int) : Bool :=
  currentTime - threatTime < 10000

/-- GeoMap's `visibleThreats`:
`activeThreats.filter(t => t.status === 'Detected' && t.source_coords && t.target_coords)`. -/
def GeoMap.visibleThreats (activeThreats : List Threat) : List Threat :=
  activeThreats.filter
    (fun t => t.status == "Detected" && t.source_coords.isSome && t.target_coords.isSome)

/-- Globe3D's `visibleThreats`: the same filter followed by `.slice(0, 50)`. -/
def Globe3D.visibleThreats (activeThreats : List Threat) : List Threat :=
  (activeThreats.filter
    (fun t => t.status == "Detected" && t.source_coords.isSome && t.target_coords.isSome)).take 50

/-- A concrete threat record used in counterexamples and witnesses. -/
def mkThreat (id : Option String) (status : String) : Threat :=
  { id := id
    timestamp := 0
    type := "DDoS"
    severity := "High"
    source := "203.0.113.7"
    target := "corp-gw"
    location := "Unknown"
    attribution := "Unknown"
    status := status
    confidence := 1
    source_coords := none
    target_coords := none
    analysis := none
    mitigation_suggestions := none }

/-! ## Geometry of Globe3D.tsx

The pure 3-D maths of the globe renderer, over `ℝ`.  Vectors are triples
`ℝ × ℝ × ℝ` with componentwise operations spelled out, matching the
componentwise arithmetic of `THREE.Vector3`. -/

/-- `THREE.Vector3.addVectors` (componentwise sum). -/
def addv (a b : ℝ × ℝ × ℝ) : ℝ × ℝ × ℝ :=
  (a.1 + b.1, a.2.1 + b.2.1, a.2.2 + b.2.2)

/-- `THREE.Vector3.sub` (componentwise difference). -/
def subv (a b : ℝ × ℝ × ℝ) : ℝ × ℝ × ℝ :=
  (a.1 - b.1, a.2.1 - b.2.1, a.2.2 - b.2.2)

/-- `THREE.Vector3.multiplyScalar`. -/
def smulv (c : ℝ) (a : ℝ × ℝ × ℝ) : ℝ × ℝ × ℝ :=
  (c * a.1, c * a.2.1, c * a.2.2)

/-- `THREE.Vector3.length`: the Euclidean norm. -/
noncomputable def norm3 (v : ℝ × ℝ × ℝ) : ℝ :=
  Real.sqrt (v.1 ^ 2 + v.2.1 ^ 2 + v.2.2 ^ 2)

/-- `THREE.Vector3.distanceTo`. -/
noncomputable def distanceTo (a b : ℝ × ℝ × ℝ) : ℝ :=
  norm3 (subv a b)

/-- `THREE.Vector3.normalize`, which divides by `length() || 1` — so the
zero vector is left unchanged rather than producing a division error. -/
noncomputable def normalize (v : ℝ × ℝ × ℝ) : ℝ × ℝ × ℝ :=
  if norm3 v = 0 then v else smulv (norm3 v)⁻¹ v

/-- `latLonToVector3` of src/Globe3D.tsx:
`phi = (90 - lat) * (Math.PI / 180)`, `theta = (lon + 180) * (Math.PI / 180)`,
returning `(-r·sin(phi)·cos(theta), r·cos(phi), r·sin(phi)·sin(theta))`. -/
noncomputable def latLonToVector3 (lat lon radius : ℝ) : ℝ × ℝ × ℝ :=
  (-radius * Real.sin ((90 - lat) * (Real.pi / 180))
      * Real.cos ((lon + 180) * (Real.pi / 180)),
    radius * Real.cos ((90 - lat) * (Real.pi / 180)),
    radius * Real.sin ((90 - lat) * (Real.pi / 180))
      * Real.sin ((lon + 180) * (Real.pi / 180)))

/-- A point of `THREE.QuadraticBezierCurve3`: the componentwise quadratic
Bézier interpolation `(1-t)²·p0 + 2(1-t)t·p1 + t²·p2` used by
`curve.getPoint`. -/
def quadraticBezier (p0 p1 p2 : ℝ × ℝ × ℝ) (t : ℝ) : ℝ × ℝ × ℝ :=
  ((1 - t) ^ 2 * p0.1 + 2 * (1 - t) * t * p1.1 + t ^ 2 * p2.1,
    (1 - t) ^ 2 * p0.2.1 + 2 * (1 - t) * t * p1.2.1 + t ^ 2 * p2.2.1,
    (1 - t) ^ 2 * p0.2.2 + 2 * (1 - t) * t * p1.2.2 + t ^ 2 * p2.2.2)

/-- The `midPoint` local of the `AttackArc` component of src/Globe3D.tsx:
`new THREE.Vector3().addVectors(sourceVec, targetVec).multiplyScalar(0.5)`. -/
noncomputable def arcMidPoint (slat slon tlat tlon radius : ℝ) : ℝ × ℝ × ℝ :=
  smulv 0.5 (addv (latLonToVector3 slat slon radius) (latLonToVector3 tlat tlon radius))

/-- The `distance` local of `AttackArc`: `sourceVec.distanceTo(targetVec)`
(the chord length). -/
noncomputable def chordLength (slat slon tlat tlon radius : ℝ) : ℝ :=
  distanceTo (latLonToVector3 slat slon radius) (latLonToVector3 tlat tlon radius)

/-- The `controlPoint` local of `AttackArc`:
`midPoint.normalize().multiplyScalar(radius + distance * 0.3)`. -/
noncomputable def arcControlPoint (slat slon tlat tlon radius : ℝ) : ℝ × ℝ × ℝ :=
  smulv (radius + chordLength slat slon tlat tlon radius * 0.3)
    (normalize (arcMidPoint slat slon tlat tlon radius))

/-- The `points` produced by `AttackArc`:
`new THREE.QuadraticBezierCurve3(sourceVec, controlPoint, targetVec).getPoints(50)`,
which samples the curve at `t = i / 50` for `i = 0, …, 50` (51 points).
The component fixes `const radius = 2`; that local constant is lifted to a
parameter so the claim's quantification over the radius can be stated, and
`attackArcRadius` below records the value the component instantiates. -/
noncomputable def attackArcPoints (slat slon tlat tlon radius : ℝ) :
    List (ℝ × ℝ × ℝ) :=
  (List.range 51).map (fun i : Nat =>
    quadraticBezier (latLonToVector3 slat slon radius)
      (arcControlPoint slat slon tlat tlon radius)
      (latLonToVector3 tlat tlon radius) ((i : ℝ) / 50))

/-- The radius `AttackArc` actually instantiates (`const radius = 2`). -/
def attackArcRadius : ℝ := 2

/-! ## Helper lemmas shared by several claims -/

/-- `norm3` on an explicit triple. -/
theorem norm3_mk (a b c : ℝ) : norm3 (a, b, c) = Real.sqrt (a ^ 2 + b ^ 2 + c ^ 2) := rfl

/-- The Euclidean norm is nonnegative. -/
theorem norm3_nonneg (v : ℝ × ℝ × ℝ) : 0 ≤ norm3 v := Real.sqrt_nonneg _

/-- Scaling scales the norm by the absolute value of the factor. -/
theorem norm3_smulv (c : ℝ) (v : ℝ × ℝ × ℝ) : norm3 (smulv c v) = |c| * norm3 v := by
  simp only [norm3, smulv]
  rw [show (c * v.1) ^ 2 + (c * v.2.1) ^ 2 + (c * v.2.2) ^ 2
      = c ^ 2 * (v.1 ^ 2 + v.2.1 ^ 2 + v.2.2 ^ 2) from by ring,
    Real.sqrt_mul (sq_nonneg c), Real.sqrt_sq_eq_abs]

/-- Only the zero vector has norm zero. -/
theorem norm3_eq_zero_iff (v : ℝ × ℝ × ℝ) : norm3 v = 0 ↔ v = (0, 0, 0) := by
  obtain ⟨a, b, c⟩ := v
  simp only [norm3, Prod.mk.injEq]
  constructor
  · intro h
    have hle : a ^ 2 + b ^ 2 + c ^ 2 ≤ 0 := Real.sqrt_eq_zero'.mp h
    refine ⟨?_, ?_, ?_⟩ <;> nlinarith [sq_nonneg a, sq_nonneg b, sq_nonneg c]
  · rintro ⟨rfl, rfl, rfl⟩
    simp

/-- The quadratic Bézier curve starts at its first control point. -/
theorem quadraticBezier_zero (p0 p1 p2 : ℝ × ℝ × ℝ) :
    quadraticBezier p0 p1 p2 0 = p0 := by
  simp [quadraticBezier]

/-- The quadratic Bézier curve ends at its last control point. -/
theorem quadraticBezier_one (p0 p1 p2 : ℝ × ℝ × ℝ) :
    quadraticBezier p0 p1 p2 1 = p2 := by
  simp [quadraticBezier]

/-- Truncating after an append only ever looks at the first `n` elements,
so a pre-truncated right part gives the same result. -/
theorem take_append_take {α : Type} (xs ys : List α) (n : Nat) :
    (xs ++ ys.take n).take n = (xs ++ ys).take n := by
  rcases Nat.le_total n xs.length with h | h
  · rw [List.take_append_eq_append_take, List.take_append_eq_append_take]
    have h0 : n - xs.length = 0 := Nat.sub_eq_zero_of_le h
    simp [h0]
  · rw [List.take_append_eq_append_take, List.take_append_eq_append_take, List.take_take]
    have hm : min (n - xs.length) n = n - xs.length := Nat.min_eq_left (Nat.sub_le _ _)
    rw [hm]

/-- Every single state transition leaves the collection within capacity. -/
theorem applyOp_length_le (s : List Threat) (op : Op) :
    (applyOp s op).length ≤ capacity := by
  cases op <;> · rw [applyOp, List.length_take]; exact Nat.min_le_left _ _

/-- Capacity is preserved along any fold of operations. -/
theorem foldl_applyOp_length_le (ops : List Op) : ∀ acc : List Threat,
    acc.length ≤ capacity → (ops.foldl applyOp acc).length ≤ capacity := by
  induction ops with
  | nil => intro acc h; simpa using h
  | cons op ops ih => intro acc _; exact ih _ (applyOp_length_le acc op)

/-- Folding a sequence of pushed messages over any in-capacity state keeps
exactly the `capacity` most recently pushed records, newest first. -/
theorem foldl_message_eq (es : List Threat) : ∀ acc : List Threat,
    acc.length ≤ capacity →
    (es.map Op.message).foldl applyOp acc = (es.reverse ++ acc).take capacity := by
  induction es with
  | nil => intro acc h; simp [List.take_of_length_le h]
  | cons e es ih =>
    intro acc _
    have hlen : ((e :: acc).take capacity).length ≤ capacity := by
      rw [List.length_take]; exact Nat.min_le_left _ _
    have h1 := ih ((e :: acc).take capacity) hlen
    simp only [List.map_cons, List.foldl_cons] at *
    rw [show applyOp acc (Op.message e) = (e :: acc).take capacity from rfl, h1,
      take_append_take, List.reverse_cons, List.append_assoc, List.cons_append,
      List.nil_append]

/-! ## Claims about the fusion engine and the mitigation coordinator -/

/-- C1 counterexample.  Starting from the reachable state in which the
only entry `A` has been mitigated (`ingestOne` of a Detected `A`, then a
successful `mitigate("A")`), a snapshot listing `A` with status
`"Detected"` leaves `A` observed as `"Detected"`, not `"Mitigated"`: the
snapshot handler `setThreats(data.slice(0, 50))` replaces the collection
outright instead of merging statuses. -/
theorem snapshot_detected_overwrites_mitigated :
    (handleMitigate "A" MitigationResponse.ok
        (run [Op.message (mkThreat (some "A") "Detected")])).1
      = [mkThreat (some "A") "Mitigated"] ∧
    (applyOp [mkThreat (some "A") "Mitigated"]
        (Op.snapshot [mkThreat (some "A") "Detected"])).map Threat.status
      = ["Detected"] ∧
    ("Detected" : String) ≠ "Mitigated" := by
  refine ⟨by decide, rfl, by decide⟩

/-- C1 (amended): `loadSnapshot` does not merge at all — it replaces the
working collection with the first 50 records of the snapshot verbatim,
independently of the previous local state, so a locally Mitigated id that
the snapshot lists as Detected is observed as Detected afterwards; status
monotonicity across snapshot loads does not hold. -/
theorem snapshot_replaces_collection (prev prev' data : List Threat) :
    applyOp prev (Op.snapshot data) = data.take 50 ∧
    applyOp prev (Op.snapshot data) = applyOp prev' (Op.snapshot data) :=
  ⟨rfl, rfl⟩

/-- C2 counterexample.  Pushing the same event (id `"A"`) twice over the
WebSocket leaves two entries with id `"A"` in the working collection:
`ws.onmessage` prepends with no de-duplication, so uniqueness fails. -/
theorem duplicate_id_after_repeated_ingest :
    ((run [Op.message (mkThreat (some "A") "Detected"),
           Op.message (mkThreat (some "A") "Detected")]).countP
        (fun t => t.id = some "A")) = 2 ∧
    ¬ ((run [Op.message (mkThreat (some "A") "Detected"),
             Op.message (mkThreat (some "A") "Detected")]).countP
          (fun t => t.id = some "A")) ≤ 1 := by
  refine ⟨by decide, by decide⟩

/-- C2 (amended): ingesting over the push channel prepends the record
unconditionally (then truncates to 50); when the collection is below
capacity the new record is simply consed on, and the number of entries
carrying the incoming record's id grows by one even if that id is already
present — update-in-place is not implemented, so an id can occur more than
once. -/
theorem ingest_prepends_without_dedup (e : Threat) (prev : List Threat)
    (h : prev.length < 50) :
    applyOp prev (Op.message e) = e :: prev ∧
    (applyOp prev (Op.message e)).countP (fun t => t.id = e.id)
      = prev.countP (fun t => t.id = e.id) + 1 := by
  have h1 : (e :: prev).take capacity = e :: prev :=
    List.take_of_length_le (by simp [capacity]; omega)
  refine ⟨h1, ?_⟩
  rw [show applyOp prev (Op.message e) = (e :: prev).take capacity from rfl, h1,
    List.countP_cons]
  simp

/-- Witness for the amended C2 at a concrete input: the id `"A"` is
already present and gets duplicated. -/
theorem ingest_prepends_without_dedup_holds :
    applyOp [mkThreat (some "A") "Detected"]
        (Op.message (mkThreat (some "A") "Detected"))
      = [mkThreat (some "A") "Detected", mkThreat (some "A") "Detected"] :=
  (ingest_prepends_without_dedup (mkThreat (some "A") "Detected")
    [mkThreat (some "A") "Detected"] (by decide)).1

/-- C3: the capacity invariant holds — every reachable collection has at
most 50 entries, and a pure sequence of pushed events retains exactly the
50 most recently ingested ones, newest first (the tail is evicted). -/
theorem capacity_and_recency :
    (∀ ops : List Op, (run ops).length ≤ 50) ∧
    (∀ es : List Threat, run (es.map Op.message) = es.reverse.take 50) := by
  constructor
  · intro ops
    exact foldl_applyOp_length_le ops [] (by simp)
  · intro es
    have h := foldl_message_eq es [] (by simp)
    simpa [run, capacity] using h

/-- C4: on each of the three paths — backend success (`response.ok`), the
sentinel domain error `"Threat not found"`, and transport failure (the
`catch` block) — `handleMitigate` applies the local update, so every entry
carrying the mitigated id ends with status `"Mitigated"`, and no error is
surfaced to the operator (the returned alert component is `none`). -/
theorem mitigate_success_paths (id : String) (resp : MitigationResponse)
    (threats : List Threat)
    (h : resp = MitigationResponse.ok
        ∨ resp = MitigationResponse.domainError (some "Threat not found")
        ∨ resp = MitigationResponse.transportFailure) :
    (handleMitigate id resp threats).2 = none ∧
    ∀ t ∈ (handleMitigate id resp threats).1,
      t.id = some id → t.status = "Mitigated" := by
  have key : handleMitigate id resp threats = (updateLocalState id threats, none) := by
    rcases h with rfl | rfl | rfl <;> simp [handleMitigate]
  rw [key]
  refine ⟨rfl, ?_⟩
  intro t ht hid
  simp only [updateLocalState, List.mem_map] at ht
  obtain ⟨u, _, rfl⟩ := ht
  by_cases hc : u.id = some id
  · simp [hc]
  · rw [if_neg hc] at hid ⊢
    exact absurd hid hc

/-- Witness for C4 at a concrete input: a successful `mitigate("A")` on a
collection holding a Detected `A` surfaces no error and marks `A`
Mitigated. -/
theorem mitigate_success_paths_holds :
    (handleMitigate "A" MitigationResponse.ok [mkThreat (some "A") "Detected"]).2
      = none ∧
    (handleMitigate "A" MitigationResponse.ok [mkThreat (some "A") "Detected"]).1
      = [mkThreat (some "A") "Mitigated"] := by
  have h := mitigate_success_paths "A" MitigationResponse.ok
    [mkThreat (some "A") "Detected"] (Or.inl rfl)
  exact ⟨h.1, by decide⟩

/-- C5: a domain error whose message is neither the sentinel
`"Threat not found"` nor empty leaves the collection untouched (so a
Detected entry stays Detected) and surfaces the failure message verbatim
to the operator, embedded in the alert text `"Mitigation failed: " ++ m`. -/
theorem mitigate_domain_error (id m : String) (threats : List Threat)
    (h1 : m ≠ "Threat not found") (h2 : m ≠ "") :
    (handleMitigate id (MitigationResponse.domainError (some m)) threats).1
      = threats ∧
    (handleMitigate id (MitigationResponse.domainError (some m)) threats).2
      = some ("Mitigation failed: " ++ m) := by
  simp [handleMitigate, mitigationAlertText, h1, h2]

/-- Witness for C5 at the spec's own scenario: `mitigate("B")` answered
with `ok:false, message:"Rate limited"` leaves `B` Detected and surfaces
the message. -/
theorem mitigate_domain_error_holds :
    (handleMitigate "B" (MitigationResponse.domainError (some "Rate limited"))
        [mkThreat (some "B") "Detected"]).1 = [mkThreat (some "B") "Detected"] ∧
    (handleMitigate "B" (MitigationResponse.domainError (some "Rate limited"))
        [mkThreat (some "B") "Detected"]).2
      = some ("Mitigation failed: " ++ "Rate limited") :=
  mitigate_domain_error "B" "Rate limited" [mkThreat (some "B") "Detected"]
    (by decide) (by decide)

/-- C6 counterexample.  A record with no `id` field pushed over the
WebSocket is ingested, not dropped: starting from the empty collection the
state after the ingest is `[record]`, which differs from the state before
(`[]`).  `ws.onmessage` runs `JSON.parse` and prepends the result with no
validation whatsoever. -/
theorem missing_id_record_ingested :
    applyOp [] (Op.message (mkThreat none "Detected"))
      = [mkThreat none "Detected"] ∧
    applyOp [] (Op.message (mkThreat none "Detected")) ≠ [] := by
  refine ⟨rfl, by decide⟩

/-- C6 (amended): a malformed record (missing `id`) is inserted at the
front of the collection like any other record; the prior entries are
retained behind it (no corruption, and the model's ingest path has no
error channel so nothing is surfaced), but the collection does change. -/
theorem malformed_record_not_dropped (e : Threat) (prev : List Threat)
    (_he : e.id = none) (h : prev.length < 50) :
    applyOp prev (Op.message e) = e :: prev :=
  List.take_of_length_le (by simp [capacity]; omega)

/-- Witness for the amended C6 at a concrete input. -/
theorem malformed_record_not_dropped_holds :
    applyOp [mkThreat (some "B") "Detected"]
        (Op.message (mkThreat none "Detected"))
      = [mkThreat none "Detected", mkThreat (some "B") "Detected"] :=
  malformed_record_not_dropped (mkThreat none "Detected")
    [mkThreat (some "B") "Detected"] rfl (by decide)

/-- C9: the GeoMap freshness check is exactly the strict comparison
`now - timestamp < 10000` milliseconds — a pure function of the two
instants — and once `now ≥ timestamp + 10s` it is false with no mutating
call needed. -/
theorem isNew_decay (threatTime currentTime : Int) :
    (isNew threatTime currentTime = true ↔ currentTime - threatTime < 10000) ∧
    (threatTime + 10000 ≤ currentTime → isNew threatTime currentTime = false) := by
  constructor
  · simp [isNew]
  · intro h
    simp only [isNew, decide_eq_false_iff_not, not_lt]
    omega

/-- Witness for C9 at a concrete input: an event stamped at epoch 0 is no
longer fresh at 10 000 ms. -/
theorem isNew_decay_holds : isNew 0 10000 = false :=
  (isNew_decay 0 10000).2 (by omega)

/-- C10: a threat reaches the geospatial renderers' visible list (2D map
or 3D globe) only when its status is `"Detected"` and both coordinate
pairs are present; in particular a Mitigated threat is never in either
visible list, even with both coordinate pairs attached. -/
theorem visibleThreats_only_detected (ts : List Threat) (t : Threat) :
    (t ∈ GeoMap.visibleThreats ts →
      t.status = "Detected" ∧ t.source_coords.isSome ∧ t.target_coords.isSome) ∧
    (t ∈ Globe3D.visibleThreats ts →
      t.status = "Detected" ∧ t.source_coords.isSome ∧ t.target_coords.isSome) ∧
    (t.status = "Mitigated" →
      t ∉ GeoMap.visibleThreats ts ∧ t ∉ Globe3D.visibleThreats ts) := by
  have hgeo : t ∈ GeoMap.visibleThreats ts →
      t.status = "Detected" ∧ t.source_coords.isSome ∧ t.target_coords.isSome := by
    intro ht
    have := (List.mem_filter.mp ht).2
    simpa [Bool.and_eq_true, and_assoc] using this
  have hglobe : t ∈ Globe3D.visibleThreats ts →
      t.status = "Detected" ∧ t.source_coords.isSome ∧ t.target_coords.isSome := by
    intro ht
    have hm : t ∈ ts.filter
        (fun t => t.status == "Detected" && t.source_coords.isSome
          && t.target_coords.isSome) :=
      List.mem_of_mem_take ht
    have := (List.mem_filter.mp hm).2
    simpa [Bool.and_eq_true, and_assoc] using this
  refine ⟨hgeo, hglobe, ?_⟩
  intro hstat
  constructor
  · intro ht
    have : t.status = "Detected" := (hgeo ht).1
    rw [hstat] at this
    exact absurd this (by decide)
  · intro ht
    have : t.status = "Detected" := (hglobe ht).1
    rw [hstat] at this
    exact absurd this (by decide)

/-- A Mitigated threat carrying both coordinate pairs, for the C10
witness. -/
def mitigatedWithCoords : Threat :=
  { mkThreat (some "M") "Mitigated" with
    source_coords := some ⟨231/10, -821/10, "src-city"⟩
    target_coords := some ⟨-337/10, 1512/10, "dst-city"⟩ }

/-- Witness for C10 at a concrete input: a Mitigated threat with both
coordinate pairs present is excluded from both visible lists. -/
theorem visibleThreats_only_detected_holds :
    mitigatedWithCoords ∉ GeoMap.visibleThreats [mitigatedWithCoords] ∧
    mitigatedWithCoords ∉ Globe3D.visibleThreats [mitigatedWithCoords] :=
  (visibleThreats_only_detected [mitigatedWithCoords] mitigatedWithCoords).2.2 rfl

/-! ## Claims about the Globe3D geometry -/

/-- C7: `latLonToVector3 lat lon r` is exactly the spherical-to-Cartesian
conversion with `phi = (90 - lat)·π/180` and `theta = (lon + 180)·π/180`,
returning `(-r·sin(phi)·cos(theta), r·cos(phi), r·sin(phi)·sin(theta))`,
and the result has Euclidean norm `r` for every latitude in `[-90, 90]`
and longitude in `[-180, 180]` (the sphere-surface invariant — it in fact
needs only `0 ≤ r`). -/
theorem latLonToVector3_spec (lat lon r : ℝ) (_h1 : -90 ≤ lat) (_h2 : lat ≤ 90)
    (_h3 : -180 ≤ lon) (_h4 : lon ≤ 180) (hr : 0 ≤ r) :
    latLonToVector3 lat lon r
      = (-r * Real.sin ((90 - lat) * (Real.pi / 180))
            * Real.cos ((lon + 180) * (Real.pi / 180)),
          r * Real.cos ((90 - lat) * (Real.pi / 180)),
          r * Real.sin ((90 - lat) * (Real.pi / 180))
            * Real.sin ((lon + 180) * (Real.pi / 180))) ∧
    norm3 (latLonToVector3 lat lon r) = r := by
  refine ⟨rfl, ?_⟩
  have hphi := Real.sin_sq_add_cos_sq ((90 - lat) * (Real.pi / 180))
  have htheta := Real.sin_sq_add_cos_sq ((lon + 180) * (Real.pi / 180))
  have key : (-r * Real.sin ((90 - lat) * (Real.pi / 180))
        * Real.cos ((lon + 180) * (Real.pi / 180))) ^ 2
      + (r * Real.cos ((90 - lat) * (Real.pi / 180))) ^ 2
      + (r * Real.sin ((90 - lat) * (Real.pi / 180))
          * Real.sin ((lon + 180) * (Real.pi / 180))) ^ 2 = r ^ 2 := by
    linear_combination r ^ 2 * Real.sin ((90 - lat) * (Real.pi / 180)) ^ 2 * htheta
      + r ^ 2 * hphi
  rw [latLonToVector3, norm3_mk, key]
  exact Real.sqrt_sq hr

/-- Witness for C7 at the spec's own scenario: the north pole at radius 2
maps to the +Y apex `(0, 2, 0)` — here exactly, not merely within
tolerance, since the model is over `ℝ` — and the image has norm 2. -/
theorem latLonToVector3_spec_holds :
    latLonToVector3 90 0 2 = (0, 2, 0) ∧ norm3 (latLonToVector3 90 0 2) = 2 := by
  have h := latLonToVector3_spec 90 0 2 (by norm_num) (by norm_num) (by norm_num)
    (by norm_num) (by norm_num)
  refine ⟨?_, h.2⟩
  rw [latLonToVector3]
  norm_num

/-- C8: the arc construction of `AttackArc` yields exactly 51 samples of
the quadratic Bézier curve running from the projected source to the
projected target; its control point is the normalized chord-midpoint
direction scaled to distance `radius + 0.3 × chordLength` from the origin
(`hmid` rules out the degenerate antipodal chord whose midpoint is the
origin and has no direction to normalize); and the construction is a pure
function, so identical inputs yield identical sequences. -/
theorem attackArc_spec (slat slon tlat tlon radius : ℝ) (hr : 0 ≤ radius)
    (hmid : arcMidPoint slat slon tlat tlon radius ≠ (0, 0, 0)) :
    (attackArcPoints slat slon tlat tlon radius).length = 51 ∧
    (attackArcPoints slat slon tlat tlon radius).head?
      = some (latLonToVector3 slat slon radius) ∧
    (attackArcPoints slat slon tlat tlon radius).getLast?
      = some (latLonToVector3 tlat tlon radius) ∧
    (∀ i : Nat, i < 51 →
      (attackArcPoints slat slon tlat tlon radius)[i]?
        = some (quadraticBezier (latLonToVector3 slat slon radius)
            (arcControlPoint slat slon tlat tlon radius)
            (latLonToVector3 tlat tlon radius) (i / 50))) ∧
    arcControlPoint slat slon tlat tlon radius
      = smulv (radius + 0.3 * chordLength slat slon tlat tlon radius)
          (smulv (norm3 (arcMidPoint slat slon tlat tlon radius))⁻¹
            (arcMidPoint slat slon tlat tlon radius)) ∧
    norm3 (arcControlPoint slat slon tlat tlon radius)
      = radius + 0.3 * chordLength slat slon tlat tlon radius ∧
    attackArcPoints slat slon tlat tlon radius
      = attackArcPoints slat slon tlat tlon radius := by
  have hnm : norm3 (arcMidPoint slat slon tlat tlon radius) ≠ 0 := fun h =>
    hmid ((norm3_eq_zero_iff _).mp h)
  have hchord : 0 ≤ chordLength slat slon tlat tlon radius := Real.sqrt_nonneg _
  have hscale : 0 ≤ radius + chordLength slat slon tlat tlon radius * 0.3 :=
    add_nonneg hr (mul_nonneg hchord (by norm_num))
  refine ⟨?_, ?_, ?_, ?_, ?_, ?_, rfl⟩
  · simp [attackArcPoints]
  · rw [attackArcPoints, List.head?_eq_getElem?, List.getElem?_map,
      List.getElem?_range (by norm_num)]
    norm_num [quadraticBezier_zero]
  · rw [attackArcPoints, List.getLast?_eq_getElem?]
    simp only [List.length_map, List.length_range]
    rw [List.getElem?_map, List.getElem?_range (by norm_num)]
    norm_num [quadraticBezier_one]
  · intro i hi
    rw [attackArcPoints, List.getElem?_map, List.getElem?_range hi]
    rfl
  · rw [arcControlPoint, normalize, if_neg hnm,
      mul_comm (chordLength slat slon tlat tlon radius) 0.3]
  · rw [arcControlPoint, normalize, if_neg hnm, norm3_smulv, norm3_smulv,
      abs_of_nonneg hscale, abs_of_nonneg (inv_nonneg.mpr (norm3_nonneg _)),
      inv_mul_cancel₀ hnm, mul_one]
    ring

/-- Witness for C8 at a concrete input (source = target = `(0, 0)`,
radius 2, the value `AttackArc` uses): the midpoint is the nonzero vector
`(2, 0, 0)`, the sample list has 51 points, and the control point sits at
distance `2 + 0.3 × chordLength` from the origin. -/
theorem attackArc_spec_holds :
    (attackArcPoints 0 0 0 0 2).length = 51 ∧
    norm3 (arcControlPoint 0 0 0 0 2) = 2 + 0.3 * chordLength 0 0 0 0 2 := by
  have hsv : latLonToVector3 0 0 2 = (2, 0, 0) := by
    rw [latLonToVector3,
      show ((90 : ℝ) - 0) * (Real.pi / 180) = Real.pi / 2 by ring,
      show ((0 : ℝ) + 180) * (Real.pi / 180) = Real.pi by ring]
    norm_num [Real.sin_pi_div_two, Real.cos_pi_div_two, Real.sin_pi, Real.cos_pi]
  have hmid : arcMidPoint 0 0 0 0 2 ≠ (0, 0, 0) := by
    rw [arcMidPoint, hsv]
    norm_num [smulv, addv, Prod.ext_iff]
  have h := attackArc_spec 0 0 0 0 2 (by norm_num) hmid
  exact ⟨h.1, h.2.2.2.2.2.1⟩

end Sentinel
